import Mathlib

/-!
Verification of the AI quiz assistant's request-lifecycle and event-dispatch
engine against its natural-language specification.

The Python sources are shallowly embedded: timestamps are rationals,
Python strings are Lean strings (or lists of characters where whitespace
tokenisation matters), `None`-able values are `Option`, thread-shared
objects become explicit state records, and raised exceptions become an
explicit exception datatype threaded through `Except`.
-/

namespace QuizApp

/-- Embedding of `models.QuizQuestion`: one quiz question with its answer. -/
structure QuizQuestion where
  number : String
  question : String
  answer : String
deriving DecidableEq

/-- Embedding of `models.QuizResult`: result of one quiz analysis. -/
structure QuizResult where
  questions : List QuizQuestion
  timestamp : ℚ
  total_questions : Nat := 0
deriving DecidableEq

/-- Embedding of `models.Request`: one analysis request with status and outcome.
Status strings are kept verbatim: "PROCESSING", "COMPLETED", "ERROR", "NONE". -/
structure Request where
  id : String
  status : String
  created_at : ℚ
  result : Option QuizResult
  error : Option String
deriving DecidableEq

/-- Embedding of `Request.get_elapsed_time`: `time.time() - self.created_at`,
with the current clock passed explicitly. -/
def Request.get_elapsed_time (r : Request) (now : ℚ) : ℚ :=
  now - r.created_at

/-- The state of `request_manager.RequestManager`: its single mutable field
`current_request` (the lock serialises access; the embedding is sequential). -/
abbrev RMState := Option Request

namespace RequestManager

/-- Embedding of `RequestManager.create_request`: replaces the current request
with a fresh PROCESSING one.  The generated uuid and the clock reading are
passed in explicitly. -/
def create_request (_s : RMState) (request_id : String) (now : ℚ) :
    RMState × String :=
  (some { id := request_id
          status := "PROCESSING"
          created_at := now
          result := none
          error := none },
   request_id)

/-- Embedding of `RequestManager.update_status`: sets the status field if a
current request exists, otherwise a no-op. -/
def update_status (s : RMState) (status : String) : RMState :=
  match s with
  | none => none
  | some r => some { r with status := status }

/-- Embedding of `RequestManager.set_result`: if a current request exists,
stores the result and sets status COMPLETED (the `error` field is left
untouched); otherwise a no-op. -/
def set_result (s : RMState) (result : QuizResult) : RMState :=
  match s with
  | none => none
  | some r => some { r with result := some result, status := "COMPLETED" }

/-- Embedding of `RequestManager.set_error`: if a current request exists,
stores the error message and sets status ERROR (the `result` field is left
untouched); otherwise a no-op. -/
def set_error (s : RMState) (error_message : String) : RMState :=
  match s with
  | none => none
  | some r => some { r with error := some error_message, status := "ERROR" }

/-- The dictionary returned by `RequestManager.get_current_status`. -/
structure StatusInfo where
  status : String
  result : Option QuizResult
  error : Option String
  elapsed_time : Option ℚ
deriving DecidableEq

/-- Embedding of `RequestManager.get_current_status`: snapshot of the current
request; `elapsed_time` is filled in only when the status is PROCESSING. -/
def get_current_status (s : RMState) (now : ℚ) : StatusInfo :=
  match s with
  | none =>
      { status := "NONE", result := none, error := none, elapsed_time := none }
  | some r =>
      { status := r.status
        result := r.result
        error := r.error
        elapsed_time :=
          if r.status = "PROCESSING" then some (r.get_elapsed_time now) else none }

/-- Embedding of `RequestManager.clear_request`: discards the current request. -/
def clear_request (_s : RMState) : RMState :=
  none

end RequestManager

/-- One operation of the create/set_result/set_error/clear interface of the
Request Lifecycle Tracker. -/
inductive RMOp
  | create (id : String) (now : ℚ)
  | setResult (result : QuizResult)
  | setError (msg : String)
  | clear
deriving DecidableEq

/-- Apply one tracker operation to a tracker state. -/
def RMOp.apply (s : RMState) : RMOp → RMState
  | .create id now => (RequestManager.create_request s id now).1
  | .setResult r => RequestManager.set_result s r
  | .setError m => RequestManager.set_error s m
  | .clear => RequestManager.clear_request s

/-- Run a sequence of tracker operations from a starting state. -/
def runOps (s : RMState) (ops : List RMOp) : RMState :=
  ops.foldl RMOp.apply s

/-- The field invariant that actually holds of every reachable tracker state:
a PROCESSING request has both outcome fields null, a COMPLETED request has a
non-null result, an ERROR request has a non-null error.  (The converse
directions fail, because `set_result` does not clear `error` and `set_error`
does not clear `result`.) -/
def RMInv (s : RMState) : Prop :=
  ∀ r : Request, s = some r →
    (r.status = "PROCESSING" ∨ r.status = "COMPLETED" ∨ r.status = "ERROR") ∧
    (r.status = "PROCESSING" → r.result = none ∧ r.error = none) ∧
    (r.status = "COMPLETED" → r.result ≠ none) ∧
    (r.status = "ERROR" → r.error ≠ none)

/-- A fixed sample analysis result used in concrete traces. -/
def sampleResult : QuizResult :=
  { questions := [{ number := "1", question := "q", answer := "A" }]
    timestamp := 0
    total_questions := 0 }

/-- The tracker state reached by create, then set_error, then set_result. -/
def c2Trace : RMState :=
  runOps none [RMOp.create "a" 0, RMOp.setError "m", RMOp.setResult sampleResult]

lemma RMInv_step (s : RMState) (op : RMOp) (h : RMInv s) : RMInv (RMOp.apply s op) := by
  cases op with
  | create id now =>
      intro r hr
      simp [RMOp.apply, RequestManager.create_request] at hr
      subst hr
      simp
  | setResult q =>
      intro r hr
      cases s with
      | none => simp [RMOp.apply, RequestManager.set_result] at hr
      | some r0 =>
          simp [RMOp.apply, RequestManager.set_result] at hr
          subst hr
          simp
  | setError m =>
      intro r hr
      cases s with
      | none => simp [RMOp.apply, RequestManager.set_error] at hr
      | some r0 =>
          simp [RMOp.apply, RequestManager.set_error] at hr
          subst hr
          simp
  | clear =>
      intro r hr
      simp [RMOp.apply, RequestManager.clear_request] at hr

lemma RMInv_runOps (ops : List RMOp) (s : RMState) (h : RMInv s) :
    RMInv (runOps s ops) := by
  induction ops generalizing s with
  | nil => exact h
  | cons op ops ih => exact ih _ (RMInv_step s op h)

/-- C2 counterexample: after create, set_error "m", set_result, the current
request has status COMPLETED yet a non-null error field, so the claimed
invariant (error non-null only when status is ERROR) is violated. -/
theorem c2_error_nonnull_in_completed_state :
    ∃ r : Request, c2Trace = some r ∧
      r.error = some "m" ∧ r.status = "COMPLETED" ∧ r.status ≠ "ERROR" :=
  ⟨{ id := "a", status := "COMPLETED", created_at := 0,
     result := some sampleResult, error := some "m" },
   rfl, rfl, rfl, by decide⟩

/-- C2 (amended): for every reachable tracker state under
create/set_result/set_error/clear, a COMPLETED request has a non-null result,
an ERROR request has a non-null error, and a PROCESSING request has both
fields null; the original "only when" directions fail because neither
completion operation clears the other field. -/
theorem rm_reachable_field_invariant (ops : List RMOp) (r : Request)
    (h : runOps none ops = some r) :
    (r.status = "PROCESSING" → r.result = none ∧ r.error = none) ∧
    (r.status = "COMPLETED" → r.result ≠ none) ∧
    (r.status = "ERROR" → r.error ≠ none) := by
  have hinv : RMInv (runOps none ops) :=
    RMInv_runOps ops none (by intro r hr; cases hr)
  exact (hinv r h).2

/-- Witness for the amended C2 invariant on the concrete trace
create, set_error "m". -/
theorem rm_reachable_field_invariant_witness :
    ({ id := "a", status := "ERROR", created_at := 0, result := none,
       error := some "m" } : Request).error ≠ none :=
  (rm_reachable_field_invariant [RMOp.create "a" 0, RMOp.setError "m"]
    { id := "a", status := "ERROR", created_at := 0, result := none,
      error := some "m" } rfl).2.2 rfl

/-- C5: `set_result` always yields status COMPLETED with the given result,
whatever the prior status of the current request (last-writer-wins); and both
`set_result` and `set_error` are no-ops leaving the tracker without a request
when none exists (the embedded operations are total, so nothing is raised). -/
theorem rm_set_result_last_writer_wins :
    (∀ (r : Request) (q : QuizResult),
        RequestManager.set_result (some r) q =
          some { r with result := some q, status := "COMPLETED" }) ∧
    (∀ q : QuizResult, RequestManager.set_result none q = none) ∧
    (∀ m : String, RequestManager.set_error none m = none) :=
  ⟨fun _ _ => rfl, fun _ => rfl, fun _ => rfl⟩

/-- C6: the snapshot of an empty tracker (zero creates, or right after clear)
is exactly status NONE with null result, error and elapsed_time; and in every
snapshot the elapsed_time field is non-null precisely when the current request
has status PROCESSING, in which case it equals now minus created_at. -/
theorem rm_snapshot_none_and_elapsed_iff :
    ∀ (now : ℚ) (s : RMState),
      RequestManager.get_current_status none now =
        { status := "NONE", result := none, error := none, elapsed_time := none } ∧
      RequestManager.get_current_status (RequestManager.clear_request s) now =
        { status := "NONE", result := none, error := none, elapsed_time := none } ∧
      ((RequestManager.get_current_status s now).elapsed_time ≠ none ↔
        ∃ r : Request, s = some r ∧ r.status = "PROCESSING") ∧
      (∀ r : Request, s = some r → r.status = "PROCESSING" →
        (RequestManager.get_current_status s now).elapsed_time =
          some (Request.get_elapsed_time r now)) := by
  intro now s
  refine ⟨rfl, rfl, ?_, ?_⟩
  · cases s with
    | none => simp [RequestManager.get_current_status]
    | some r =>
        by_cases h : r.status = "PROCESSING" <;>
          simp [RequestManager.get_current_status, h]
  · intro r hs hp
    subst hs
    simp [RequestManager.get_current_status, hp]

/-- Witness for C6 at a concrete PROCESSING request created at time 2,
observed at time 5. -/
theorem rm_snapshot_none_and_elapsed_iff_witness :
    (RequestManager.get_current_status
        (some { id := "a", status := "PROCESSING", created_at := 2,
                result := none, error := none }) 5).elapsed_time =
      some (Request.get_elapsed_time
        { id := "a", status := "PROCESSING", created_at := 2,
          result := none, error := none } 5) :=
  (rm_snapshot_none_and_elapsed_iff 5
      (some { id := "a", status := "PROCESSING", created_at := 2,
              result := none, error := none })).2.2.2
    { id := "a", status := "PROCESSING", created_at := 2,
      result := none, error := none } rfl rfl

/-! Embedding of `popup_manager.PopupManager`: the UI command relay.  The
command queue carries tagged commands from producer threads to the single
Tkinter thread; the embedding replays the producer calls and one consumer
poll sequentially, which matches the claim's "no interleaved poll" scenario. -/

/-- A queued UI command: `("show", (content,))` or `("hide", ())`. -/
inductive PopupCommand
  | showCmd (content : String)
  | hideCmd
deriving DecidableEq

/-- The mutable state of `PopupManager` relevant to the relay: the command
queue, the live popup (its displayed content, `none` when destroyed), the
visibility flag and the producer-side `_current_content` field. -/
structure PopupState where
  command_queue : List PopupCommand
  current_popup : Option String
  is_visible : Bool
  current_content : String
deriving DecidableEq

namespace PopupManager

/-- Embedding of `PopupManager.show`: records `_current_content`, drains
every not-yet-consumed command from the queue, then enqueues exactly one
show command. -/
def show_popup (s : PopupState) (content : String) : PopupState :=
  { s with current_content := content
           command_queue := [PopupCommand.showCmd content] }

/-- Embedding of `PopupManager.hide`: drains the queue, then enqueues
exactly one hide command. -/
def hide_popup (s : PopupState) : PopupState :=
  { s with command_queue := [PopupCommand.hideCmd] }

/-- Embedding of `PopupManager._create_popup_internal` (consumer side):
destroys any previous popup and materialises a new one with the given
content. -/
def create_popup_internal (s : PopupState) (content : String) : PopupState :=
  { s with current_popup := some content, is_visible := true }

/-- Embedding of `PopupManager._hide_internal` (consumer side): destroys the
popup. -/
def hide_internal (s : PopupState) : PopupState :=
  { s with current_popup := none, is_visible := false, current_content := "" }

/-- Dispatch of one dequeued command inside `_process_commands`. -/
def process_one (s : PopupState) : PopupCommand → PopupState
  | .showCmd content => create_popup_internal s content
  | .hideCmd => hide_internal s

/-- Embedding of `PopupManager._process_commands` (one poll): dequeues and
performs every queued command in order, returning the new state together
with the list of commands actually performed during this poll. -/
def process_commands (s : PopupState) : PopupState × List PopupCommand :=
  ({ s.command_queue.foldl process_one s with command_queue := [] },
   s.command_queue)

end PopupManager

/-- The contents rendered (a popup surface materialised) by a list of
performed commands. -/
def renderedContents (cmds : List PopupCommand) : List String :=
  cmds.filterMap fun c =>
    match c with
    | .showCmd content => some content
    | .hideCmd => none

/-- C3: after show "X" immediately followed by show "Y" with no consumer poll
in between, the next poll performs exactly one action, that action renders
content Y, the resulting popup displays Y, and X is never rendered (when it
differs from Y). -/
theorem relay_last_write_wins (s : PopupState) (X Y : String) :
    (PopupManager.process_commands
        (PopupManager.show_popup (PopupManager.show_popup s X) Y)).2 =
      [PopupCommand.showCmd Y] ∧
    renderedContents
        (PopupManager.process_commands
          (PopupManager.show_popup (PopupManager.show_popup s X) Y)).2 = [Y] ∧
    (PopupManager.process_commands
        (PopupManager.show_popup (PopupManager.show_popup s X) Y)).1.current_popup
      = some Y ∧
    (X ≠ Y →
      X ∉ renderedContents
        (PopupManager.process_commands
          (PopupManager.show_popup (PopupManager.show_popup s X) Y)).2) := by
  refine ⟨rfl, rfl, rfl, ?_⟩
  intro hxy
  simp [PopupManager.process_commands, PopupManager.show_popup, renderedContents, hxy]

/-- Witness for C3 with contents "X" and "Y" from the empty relay state. -/
theorem relay_last_write_wins_witness :
    "X" ∉ renderedContents
      (PopupManager.process_commands
        (PopupManager.show_popup
          (PopupManager.show_popup
            { command_queue := [], current_popup := none, is_visible := false,
              current_content := "" } "X") "Y")).2 :=
  (relay_last_write_wins
      { command_queue := [], current_popup := none, is_visible := false,
        current_content := "" } "X" "Y").2.2.2 (by decide)

/-! Embedding of `hotkey_listener.HotkeyListener`: the debounced event
dispatcher.  Key events are delivered one at a time by the listener thread;
the embedding is a step function from (state, clock, key event) to
(state, invoked callback). -/

/-- The logical actions whose callbacks `on_key_press` can invoke. -/
inductive Action
  | capture
  | results
  | answers
  | reset
  | settings
  | exitApp
  | clearLogs
deriving DecidableEq

/-- The hotkey table (`self.hotkeys`): action name to trigger character. -/
structure Hotkeys where
  capture : Char
  results : Char
  answers : Char
  reset : Char
  settings : Char
deriving DecidableEq

/-- Embedding of `HotkeyListener.DEFAULT_HOTKEYS`. -/
def DEFAULT_HOTKEYS : Hotkeys :=
  { capture := 'z', results := 'x', answers := 'c', reset := 'r',
    settings := 's' }

/-- A pynput special key as observed by `on_key_press`. -/
inductive SpecialKey
  | alt
  | alt_l
  | alt_r
  | delete
  | otherKey
deriving DecidableEq

/-- A pynput key event: a `keyboard.Key` instance, or a key code whose
`char` payload may be absent. -/
inductive PyKey
  | special (k : SpecialKey)
  | code (ch : Option Char)
deriving DecidableEq

/-- The mutable listener state touched by `on_key_press`/`on_key_release`. -/
structure ListenerState where
  alt_pressed : Bool
  last_hotkey_time : List (Char × ℚ)
  hotkeys : Hotkeys
deriving DecidableEq

/-- Embedding of `self._last_hotkey_time.get(key_char, 0)`. -/
def getLastTime (m : List (Char × ℚ)) (k : Char) : ℚ :=
  (m.lookup k).getD 0

/-- Embedding of `self._last_hotkey_time[key_char] = now` (newest binding
shadows the old one). -/
def setLastTime (m : List (Char × ℚ)) (k : Char) (t : ℚ) : List (Char × ℚ) :=
  (k, t) :: m

/-- Embedding of `self._hotkey_cooldown = 0.5`. -/
def hotkey_cooldown : ℚ := 1 / 2

/-- The backtick character, the unconditional exit trigger. -/
def backtick : Char := Char.ofNat 96

/-- The `if key_char == self.hotkeys[...]` chain of `on_key_press`: which
bound callback a matched character invokes, `none` when unmatched. -/
def boundAction (h : Hotkeys) (key_char : Char) : Option Action :=
  if key_char = h.capture then some Action.capture
  else if key_char = h.results then some Action.results
  else if key_char = h.answers then some Action.answers
  else if key_char = h.reset then some Action.reset
  else if key_char = h.settings then some Action.settings
  else none

namespace HotkeyListener

/-- Embedding of `HotkeyListener.on_key_press`.  Special keys update the alt
flag or fire the clear-logs callback; the backtick exits unconditionally;
any other character, with alt held, passes the per-character debounce (its
timestamp is updated on every accepted press) and is then matched against
the hotkey table. -/
def on_key_press (s : ListenerState) (now : ℚ) (key : PyKey) :
    ListenerState × Option Action :=
  match key with
  | .special k =>
      if k = SpecialKey.alt ∨ k = SpecialKey.alt_l ∨ k = SpecialKey.alt_r then
        ({ s with alt_pressed := true }, none)
      else if k = SpecialKey.delete then
        (s, some Action.clearLogs)
      else
        (s, none)
  | .code none => (s, none)
  | .code (some c) =>
      if c = backtick then
        (s, some Action.exitApp)
      else if s.alt_pressed then
        let key_char := c.toLower
        let last_time := getLastTime s.last_hotkey_time key_char
        if now - last_time < hotkey_cooldown then
          (s, none)
        else
          let s2 := { s with
            last_hotkey_time := setLastTime s.last_hotkey_time key_char now }
          (s2, boundAction s.hotkeys key_char)
      else
        (s, none)

/-- Embedding of `HotkeyListener.on_key_release`: releasing alt clears the
modifier flag. -/
def on_key_release (s : ListenerState) (key : PyKey) : ListenerState :=
  match key with
  | .special k =>
      if k = SpecialKey.alt ∨ k = SpecialKey.alt_l ∨ k = SpecialKey.alt_r then
        { s with alt_pressed := false }
      else s
  | .code _ => s

end HotkeyListener

lemma getLastTime_set (m : List (Char × ℚ)) (k : Char) (t : ℚ) :
    getLastTime (setLastTime m k t) k = t := by
  simp [getLastTime, setLastTime, List.lookup]

lemma on_key_press_char_accepted (s : ListenerState) (now : ℚ) (c : Char)
    (halt : s.alt_pressed = true) (hbt : c ≠ backtick)
    (hnd : ¬ (now - getLastTime s.last_hotkey_time c.toLower < hotkey_cooldown)) :
    HotkeyListener.on_key_press s now (PyKey.code (some c)) =
      ({ s with last_hotkey_time := setLastTime s.last_hotkey_time c.toLower now },
       boundAction s.hotkeys c.toLower) := by
  simp only [HotkeyListener.on_key_press, if_neg hbt, halt]
  simp [hnd]

lemma on_key_press_char_suppressed (s : ListenerState) (now : ℚ) (c : Char)
    (halt : s.alt_pressed = true) (hbt : c ≠ backtick)
    (hd : now - getLastTime s.last_hotkey_time c.toLower < hotkey_cooldown) :
    HotkeyListener.on_key_press s now (PyKey.code (some c)) = (s, none) := by
  simp only [HotkeyListener.on_key_press, if_neg hbt, halt]
  simp [hd]

/-- C4: with alt held and character c bound to action a (c already lowercase
and not the reserved exit character), starting from a state whose stored
timestamp for c is at least one cooldown old: the press at t0 invokes a and
records t0; the press at t0 + 0.2 is suppressed, leaving the state untouched
and invoking nothing; the press at t0 + 0.6 invokes a again and records
t0 + 0.6. -/
theorem hotkey_debounce_triple (s : ListenerState) (c : Char) (a : Action)
    (t0 : ℚ)
    (halt : s.alt_pressed = true)
    (hlow : c.toLower = c)
    (hbt : c ≠ backtick)
    (hbound : boundAction s.hotkeys c = some a)
    (hready : getLastTime s.last_hotkey_time c ≤ t0 - hotkey_cooldown) :
    (HotkeyListener.on_key_press s t0 (PyKey.code (some c))).2 = some a ∧
    getLastTime
        (HotkeyListener.on_key_press s t0
          (PyKey.code (some c))).1.last_hotkey_time c = t0 ∧
    HotkeyListener.on_key_press
        (HotkeyListener.on_key_press s t0 (PyKey.code (some c))).1
        (t0 + 1/5) (PyKey.code (some c)) =
      ((HotkeyListener.on_key_press s t0 (PyKey.code (some c))).1, none) ∧
    (HotkeyListener.on_key_press
        (HotkeyListener.on_key_press s t0 (PyKey.code (some c))).1
        (t0 + 3/5) (PyKey.code (some c))).2 = some a ∧
    getLastTime
        (HotkeyListener.on_key_press
          (HotkeyListener.on_key_press s t0 (PyKey.code (some c))).1
          (t0 + 3/5) (PyKey.code (some c))).1.last_hotkey_time c = t0 + 3/5 := by
  have h1 : HotkeyListener.on_key_press s t0 (PyKey.code (some c)) =
      ({ s with last_hotkey_time := setLastTime s.last_hotkey_time c t0 },
       some a) := by
    rw [on_key_press_char_accepted s t0 c halt hbt (by rw [hlow]; linarith)]
    rw [hlow, hbound]
  have hlast1 :
      getLastTime (setLastTime s.last_hotkey_time c t0) c = t0 :=
    getLastTime_set _ _ _
  have h2 : HotkeyListener.on_key_press
      ({ s with last_hotkey_time := setLastTime s.last_hotkey_time c t0 } :
        ListenerState)
      (t0 + 1/5) (PyKey.code (some c)) =
      ({ s with last_hotkey_time := setLastTime s.last_hotkey_time c t0 },
       none) := by
    refine on_key_press_char_suppressed _ _ _ halt hbt ?_
    rw [hlow]
    simp only [hlast1]
    rw [hotkey_cooldown]
    norm_num
  have h3 : HotkeyListener.on_key_press
      ({ s with last_hotkey_time := setLastTime s.last_hotkey_time c t0 } :
        ListenerState)
      (t0 + 3/5) (PyKey.code (some c)) =
      ({ s with last_hotkey_time :=
          setLastTime (setLastTime s.last_hotkey_time c t0) c (t0 + 3/5) },
       some a) := by
    rw [on_key_press_char_accepted
      ({ s with last_hotkey_time := setLastTime s.last_hotkey_time c t0 } :
        ListenerState)
      (t0 + 3/5) c halt hbt
      (by rw [hlow]; simp only [hlast1]; rw [hotkey_cooldown]; norm_num)]
    rw [hlow, hbound]
  refine ⟨?_, ?_, ?_, ?_, ?_⟩
  · rw [h1]
  · rw [h1]; exact hlast1
  · rw [h1]; exact h2
  · rw [h1]; dsimp only; rw [h3]
  · rw [h1]; dsimp only; rw [h3]; exact getLastTime_set _ _ _

/-- A concrete listener state: alt held, default hotkeys, empty debounce
table. -/
def listenerInit : ListenerState :=
  { alt_pressed := true, last_hotkey_time := [], hotkeys := DEFAULT_HOTKEYS }

/-- Witness for C4 at the default capture binding, pressed at times 1, 1.2
and 1.6. -/
theorem hotkey_debounce_triple_witness :
    (HotkeyListener.on_key_press listenerInit 1 (PyKey.code (some 'z'))).2 =
      some Action.capture ∧
    HotkeyListener.on_key_press
        (HotkeyListener.on_key_press listenerInit 1
          (PyKey.code (some 'z'))).1
        (1 + 1/5) (PyKey.code (some 'z')) =
      ((HotkeyListener.on_key_press listenerInit 1
          (PyKey.code (some 'z'))).1, none) :=
  ⟨(hotkey_debounce_triple listenerInit 'z' Action.capture 1 rfl (by decide)
      (by decide) (by decide)
      (by norm_num [getLastTime, hotkey_cooldown, listenerInit])).1,
   (hotkey_debounce_triple listenerInit 'z' Action.capture 1 rfl (by decide)
      (by decide) (by decide)
      (by norm_num [getLastTime, hotkey_cooldown, listenerInit])).2.2.1⟩

/-! Embedding of the durable answer file (`_save_answers_to_file` /
`_load_answers_from_file` in `main.py`).  File contents and tokens are lists
of characters; saving writes `" ".join(history)`, loading strips the content
and splits it on whitespace (Python `str.split()` with no argument). -/

/-- The characters Python `str.split()` and `str.strip()` treat as
whitespace (space, tab, newline, carriage return, vertical tab, form feed). -/
def pyIsSpace (c : Char) : Bool :=
  c = ' ' || c = '\t' || c = '\n' || c = '\r' ||
  c = Char.ofNat 11 || c = Char.ofNat 12

/-- Embedding of `" ".join(history)`: the saved file contents. -/
def join_space : List (List Char) → List Char
  | [] => []
  | [w] => w
  | w :: ws => w ++ ' ' :: join_space ws

/-- Helper for `py_split`: walks the content, accumulating the current token
in reverse. -/
def py_split_aux : List Char → List Char → List (List Char)
  | [], acc => if acc.isEmpty then [] else [acc.reverse]
  | c :: cs, acc =>
      if pyIsSpace c then
        if acc.isEmpty then py_split_aux cs []
        else acc.reverse :: py_split_aux cs []
      else py_split_aux cs (c :: acc)

/-- Embedding of Python `content.split()`: split on runs of whitespace,
discarding empty tokens (this also subsumes the `strip()` the loader applies
first, and yields the empty history on an all-whitespace file just as the
loader's emptiness check does). -/
def py_split (content : List Char) : List (List Char) :=
  py_split_aux content []

/-- Embedding of `_save_answers_to_file`: the whole file is rewritten with
the space-joined history. -/
def save_answers_content (history : List (List Char)) : List Char :=
  join_space history

/-- Embedding of `_load_answers_from_file` at startup: the history read back
from the file contents. -/
def load_answers_content (content : List Char) : List (List Char) :=
  py_split content

lemma py_split_aux_no_space (w : List Char) (hw : ∀ c ∈ w, pyIsSpace c = false) :
    ∀ (rest acc : List Char),
      py_split_aux (w ++ rest) acc = py_split_aux rest (w.reverse ++ acc) := by
  induction w with
  | nil => intro rest acc; simp
  | cons c w ih =>
      intro rest acc
      have hc : pyIsSpace c = false := hw c (List.mem_cons_self c w)
      have hw2 : ∀ d ∈ w, pyIsSpace d = false :=
        fun d hd => hw d (List.mem_cons_of_mem c hd)
      simp only [List.cons_append, py_split_aux, hc, Bool.false_eq_true,
        if_false, List.append_eq]
      rw [ih hw2 rest (c :: acc)]
      simp

/-- C7: saving an ordered answer history to the answer file and loading it
back restores the same ordered sequence, for every history of genuine
tokens (nonempty, whitespace-free entries). -/
theorem answer_file_round_trip (history : List (List Char))
    (h : ∀ w ∈ history, w ≠ [] ∧ ∀ c ∈ w, pyIsSpace c = false) :
    load_answers_content (save_answers_content history) = history := by
  induction history with
  | nil => rfl
  | cons w ws ih =>
      obtain ⟨hne, hns⟩ := h w (List.mem_cons_self w ws)
      have hrev : ¬ w.reverse.isEmpty := by
        simp [List.isEmpty_iff, hne]
      cases ws with
      | nil =>
          show py_split_aux w [] = [w]
          have := py_split_aux_no_space w hns [] []
          rw [List.append_nil] at this
          rw [this]
          simp only [py_split_aux, List.append_nil, if_neg hrev]
          simp
      | cons w2 ws2 =>
          have hws : ∀ v ∈ w2 :: ws2, v ≠ [] ∧ ∀ c ∈ v, pyIsSpace c = false :=
            fun v hv => h v (List.mem_cons_of_mem w hv)
          show py_split_aux (w ++ ' ' :: join_space (w2 :: ws2)) [] =
            w :: w2 :: ws2
          rw [py_split_aux_no_space w hns (' ' :: join_space (w2 :: ws2)) []]
          rw [List.append_nil]
          simp only [py_split_aux, pyIsSpace, if_neg hrev]
          simp only [decide_True, Bool.true_or, if_true, if_neg hrev]
          have : py_split_aux (join_space (w2 :: ws2)) [] = w2 :: ws2 := ih hws
          rw [this]
          simp

/-- Witness for C7 on the concrete history ["1A", "2B"]. -/
theorem answer_file_round_trip_witness :
    load_answers_content
        (save_answers_content [['1', 'A'], ['2', 'B']]) =
      [['1', 'A'], ['2', 'B']] :=
  answer_file_round_trip [['1', 'A'], ['2', 'B']] (by decide)

/-! Embedding of `main.QuizAssistantApp`: the fields of the app object that
the capture handler and the completion callbacks touch.  The popup manager
interaction is abstracted to the relay-visible flag; screenshot capture and
in-memory encoding are passed in as the collaborator's reply. -/

/-- Embedding of Python `s.strip() == ''` combined with `not s`: true when
the string is empty or all-whitespace. -/
def pyStripEmpty (s : String) : Bool :=
  s.data.all pyIsSpace

/-- Embedding of `self._capture_cooldown = 2.0`. -/
def capture_cooldown : ℚ := 2

/-- The mutable app state relevant to the capture/completion paths. -/
structure AppState where
  last_capture_time : ℚ
  request_manager : RMState
  active_futures : List String
  answer_history : List String
  answer_file : List Char
  popup_visible : Bool
deriving DecidableEq

namespace QuizAssistantApp

/-- Embedding of `_save_answers_to_file`: rewrites the whole answer file with
the space-joined history. -/
def save_answers_to_file (s : AppState) : AppState :=
  { s with answer_file :=
      save_answers_content (s.answer_history.map String.data) }

/-- Embedding of `QuizAssistantApp.on_capture_hotkey`.  The per-handler 2.0 s
cooldown is checked first; an accepted invocation records its own time,
closes any visible popup, asks the capture collaborator for a screenshot and
an in-memory encoding (either may yield none, aborting the cycle), and only
then creates a Request and submits the analysis task.  Returns the new state
and the submitted task (image bytes and request id), if any. -/
def on_capture_hotkey {α β : Type} (s : AppState) (now : ℚ) (new_id : String)
    (screenshot : Option α) (save_to_memory : α → Option β) :
    AppState × Option (β × String) :=
  if now - s.last_capture_time < capture_cooldown then
    (s, none)
  else
    let s1 := { s with last_capture_time := now }
    let s2 := if s1.popup_visible then { s1 with popup_visible := false } else s1
    match screenshot with
    | none => (s2, none)
    | some shot =>
        match save_to_memory shot with
        | none => (s2, none)
        | some image_bytes =>
            let created := RequestManager.create_request s2.request_manager new_id now
            ({ s2 with request_manager := created.1
                       active_futures := s2.active_futures ++ [created.2] },
             some (image_bytes, created.2))

/-- Embedding of `QuizAssistantApp._on_api_error`: records the error message
in the tracker. -/
def on_api_error (s : AppState) (error_message : String) : AppState :=
  { s with request_manager :=
      RequestManager.set_error s.request_manager error_message }

/-- Embedding of `QuizAssistantApp._on_api_success`: stores the result in the
tracker, appends one entry `number ++ answer` per question whose answer is
neither empty nor whitespace-only (in the result's order), and rewrites the
answer file. -/
def on_api_success (s : AppState) (result : QuizResult) : AppState :=
  let s1 := { s with request_manager :=
      RequestManager.set_result s.request_manager result }
  let history :=
    result.questions.foldl
      (fun h q =>
        if pyStripEmpty q.answer then h else h ++ [q.number ++ q.answer])
      s1.answer_history
  let s2 := { s1 with answer_history := history }
  save_answers_to_file s2

end QuizAssistantApp

/-- C8: whenever the capture collaborator yields no image (the screenshot is
none, or the in-memory encoding fails), the cycle aborts before any Request
exists: the tracker is unchanged, no task is submitted, the futures table is
unchanged, and the handler (a total function) returns normally. -/
theorem capture_none_aborts_before_request {α β : Type}
    (s : AppState) (now : ℚ) (new_id : String) (f : α → Option β) (a : α) :
    ((QuizAssistantApp.on_capture_hotkey s now new_id (none : Option α) f).1.request_manager
        = s.request_manager ∧
      (QuizAssistantApp.on_capture_hotkey s now new_id (none : Option α) f).1.active_futures
        = s.active_futures ∧
      (QuizAssistantApp.on_capture_hotkey s now new_id (none : Option α) f).2 = none) ∧
    ((QuizAssistantApp.on_capture_hotkey s now new_id (some a)
          (fun _ => (none : Option β))).1.request_manager = s.request_manager ∧
      (QuizAssistantApp.on_capture_hotkey s now new_id (some a)
          (fun _ => (none : Option β))).1.active_futures = s.active_futures ∧
      (QuizAssistantApp.on_capture_hotkey s now new_id (some a)
          (fun _ => (none : Option β))).2 = none) := by
  refine ⟨?_, ?_⟩ <;>
  · unfold QuizAssistantApp.on_capture_hotkey
    dsimp only
    split
    · exact ⟨rfl, rfl, rfl⟩
    · split <;> exact ⟨rfl, rfl, rfl⟩

lemma capture_suppressed {α β : Type} (s : AppState) (now : ℚ) (id : String)
    (shot : Option α) (f : α → Option β)
    (h : now - s.last_capture_time < capture_cooldown) :
    QuizAssistantApp.on_capture_hotkey s now id shot f = (s, none) := by
  unfold QuizAssistantApp.on_capture_hotkey
  rw [if_pos h]

lemma capture_accepted_sets_time {α β : Type} (s : AppState) (t1 : ℚ)
    (id : String) (shot : Option α) (f : α → Option β)
    (h : ¬ (t1 - s.last_capture_time < capture_cooldown)) :
    (QuizAssistantApp.on_capture_hotkey s t1 id shot f).1.last_capture_time = t1 := by
  unfold QuizAssistantApp.on_capture_hotkey
  rw [if_neg h]
  dsimp only
  cases shot with
  | none =>
      dsimp only
      split <;> rfl
  | some a =>
      dsimp only
      split <;> (first | rfl | (split <;> rfl))

/-- The app state at startup, as far as the capture handler is concerned
(`_last_capture_time = 0`, no request, no futures, empty history). -/
def captureInit : AppState :=
  { last_capture_time := 0, request_manager := none, active_futures := [],
    answer_history := [], answer_file := [], popup_visible := false }

/-- First capture invocation of the C9 trace, at t = 3 (accepted). -/
def c9step1 : AppState × Option (Unit × String) :=
  QuizAssistantApp.on_capture_hotkey captureInit 3 "id1" (some ())
    (fun _ => some ())

/-- Second capture invocation of the C9 trace, at t = 4 (suppressed). -/
def c9step2 : AppState × Option (Unit × String) :=
  QuizAssistantApp.on_capture_hotkey c9step1.1 4 "id2" (some ())
    (fun _ => some ())

/-- Third capture invocation of the C9 trace, at t = 5.5. -/
def c9step3 : AppState × Option (Unit × String) :=
  QuizAssistantApp.on_capture_hotkey c9step2.1 (11/2) "id3" (some ())
    (fun _ => some ())

/-- C9 counterexample: the invocations at t = 4 and t = 5.5 are only 1.5 s
apart (less than the 2.0 s cooldown), yet the one at t = 5.5 creates a
Request and submits a task, because the cooldown is measured from the last
invocation that passed the check (t = 3), not from the last invocation. -/
theorem capture_cooldown_pair_counterexample :
    (11/2 : ℚ) - 4 < capture_cooldown ∧
    c9step2.2 = none ∧
    c9step3.2 = some ((), "id3") ∧
    c9step3.1.request_manager =
      some { id := "id3", status := "PROCESSING", created_at := 11/2,
             result := none, error := none } := by
  refine ⟨by norm_num [capture_cooldown], ?_, ?_, ?_⟩ <;>
    norm_num [c9step3, c9step2, c9step1, captureInit,
      QuizAssistantApp.on_capture_hotkey, capture_cooldown,
      RequestManager.create_request]

/-- C9 (amended): the capture handler suppresses an invocation arriving less
than 2.0 s after the most recent invocation that itself passed the cooldown
check, returning with the state unchanged, no Request created and no task
submitted; for two invocations less than 2.0 s apart this applies exactly
when the first one was accepted. -/
theorem capture_cooldown_suppresses_after_accepted {α β : Type}
    (s : AppState) (t1 t2 : ℚ) (id1 id2 : String)
    (shot1 : Option α) (f1 : α → Option β) (shot2 : Option α) (f2 : α → Option β)
    (hacc : ¬ (t1 - s.last_capture_time < capture_cooldown))
    (hgap : t2 - t1 < capture_cooldown) :
    QuizAssistantApp.on_capture_hotkey
        (QuizAssistantApp.on_capture_hotkey s t1 id1 shot1 f1).1 t2 id2 shot2 f2 =
      ((QuizAssistantApp.on_capture_hotkey s t1 id1 shot1 f1).1, none) :=
  capture_suppressed _ t2 id2 shot2 f2
    (by rw [capture_accepted_sets_time s t1 id1 shot1 f1 hacc]; exact hgap)

/-- Witness for the amended C9 on the concrete trace: the invocation at
t = 4, one second after the accepted one at t = 3, is a no-op. -/
theorem capture_cooldown_suppresses_after_accepted_witness :
    c9step2 = (c9step1.1, none) :=
  capture_cooldown_suppresses_after_accepted captureInit 3 4 "id1" "id2"
    (some ()) (fun _ => some ()) (some ()) (fun _ => some ())
    (by norm_num [captureInit, capture_cooldown])
    (by norm_num [capture_cooldown])

lemma foldl_answers (qs : List QuizQuestion) (h : List String) :
    qs.foldl
        (fun h q =>
          if pyStripEmpty q.answer then h else h ++ [q.number ++ q.answer]) h
      = h ++ (qs.filter (fun q => !(pyStripEmpty q.answer))).map
          (fun q => q.number ++ q.answer) := by
  induction qs generalizing h with
  | nil => simp
  | cons q qs ih =>
      by_cases hq : pyStripEmpty q.answer = true
      · simp [List.foldl_cons, hq, ih]
      · simp only [Bool.not_eq_true] at hq
        simp [List.foldl_cons, hq, ih]

/-- C10: on the success path, exactly the questions whose answer contains a
non-whitespace character contribute one entry each (number concatenated with
answer, in the result's order) to the answer accumulator; empty or
whitespace-only answers contribute nothing; the answer file is rewritten as
the space-joined new history, and the tracker records the result. -/
theorem success_appends_only_answered (s : AppState) (result : QuizResult) :
    (QuizAssistantApp.on_api_success s result).answer_history =
      s.answer_history ++
        (result.questions.filter (fun q => !(pyStripEmpty q.answer))).map
          (fun q => q.number ++ q.answer) ∧
    (QuizAssistantApp.on_api_success s result).answer_file =
      save_answers_content
        ((QuizAssistantApp.on_api_success s result).answer_history.map
          String.data) ∧
    (QuizAssistantApp.on_api_success s result).request_manager =
      RequestManager.set_result s.request_manager result := by
  refine ⟨?_, rfl, rfl⟩
  simp only [QuizAssistantApp.on_api_success, QuizAssistantApp.save_answers_to_file]
  exact foldl_answers result.questions s.answer_history

/-! Embedding of `gemini_client.GeminiAPIClient.parse_response` /
`analyze_quiz` and of `main.QuizAssistantApp._process_screenshot_async`.
Python exception objects become an explicit datatype; the subclass facts
that drive `except` clause matching are encoded in the dispatch functions:
`NoQuestionsFoundError` extends `Exception` only, `json.JSONDecodeError`
extends `ValueError`, and `TimeoutError` is unrelated to `ValueError`. -/

/-- The exceptions that can travel from the analysis client to the task. -/
inductive PyExc
  | noQuestionsFound (msg : String)
  | timeoutError (msg : String)
  | valueError (msg : String)
  | jsonDecodeError (msg : String)
  | otherExc (msg : String)
deriving DecidableEq

/-- Embedding of Python `str(e)`. -/
def PyExc.msg : PyExc → String
  | .noQuestionsFound m => m
  | .timeoutError m => m
  | .valueError m => m
  | .jsonDecodeError m => m
  | .otherExc m => m

/-- One element of the response's `questions` array: each of the three
required fields may be present or absent. -/
structure QDataItem where
  number : Option String
  question : Option String
  answer : Option String
deriving DecidableEq

/-- The service's response text after markdown stripping, as seen by
`json.loads` and the structural validation. -/
inductive ParsedJson
  | decodeError (msg : String)
  | missingQuestions
  | questionsNotList
  | questionsList (items : List QDataItem)
deriving DecidableEq

/-- The question-collection loop of `parse_response`: items missing a
required field are skipped. -/
def parse_questions (items : List QDataItem) : List QuizQuestion :=
  items.foldl
    (fun acc q =>
      match q.number, q.question, q.answer with
      | some n, some qt, some a =>
          acc ++ [{ number := n, question := qt, answer := a }]
      | _, _, _ => acc)
    []

/-- The body of `parse_response`'s try block: raises JSONDecodeError on
invalid JSON, ValueError on a bad shape, NoQuestionsFoundError when the
collected question list is empty, and otherwise returns the QuizResult. -/
def parse_response_body (p : ParsedJson) (now : ℚ) : Except PyExc QuizResult :=
  match p with
  | .decodeError m => .error (.jsonDecodeError m)
  | .missingQuestions =>
      .error (.valueError "Response missing \x27questions\x27 field")
  | .questionsNotList =>
      .error (.valueError "\x27questions\x27 field must be array")
  | .questionsList items =>
      let questions := parse_questions items
      if questions.isEmpty then
        .error (.noQuestionsFound "No valid questions found in response")
      else
        .ok { questions := questions, timestamp := now, total_questions := 0 }

/-- Embedding of `GeminiAPIClient.parse_response`: the try body's outcome is
filtered through the two except clauses.  `except json.JSONDecodeError`
matches only a decode error; the following `except Exception` matches every
other raised exception, including the `NoQuestionsFoundError` raised two
lines above it, and rewraps it as a ValueError. -/
def parse_response (p : ParsedJson) (now : ℚ) : Except PyExc QuizResult :=
  match parse_response_body p now with
  | .ok r => .ok r
  | .error (.jsonDecodeError m) =>
      .error (.valueError ("Response not valid JSON: " ++ m))
  | .error e =>
      .error (.valueError ("Error parsing response: " ++ e.msg))

/-- What the network call inside `analyze_quiz` did: raised, or returned a
response text. -/
inductive ApiCallResult
  | raised (e : PyExc)
  | responded (text : ParsedJson)

/-- The except clauses of `analyze_quiz`: NoQuestionsFoundError, ValueError
(which also matches its subclass JSONDecodeError) and TimeoutError re-raise
unchanged; any other exception is wrapped as a generic error.  (The f-string
timeout message is embedded with its numeric interpolation elided.) -/
def analyze_wrap : PyExc → PyExc
  | .noQuestionsFound m => .noQuestionsFound m
  | .valueError m => .valueError m
  | .jsonDecodeError m => .jsonDecodeError m
  | .timeoutError m => .timeoutError m
  | .otherExc m => .otherExc ("Error calling API: " ++ m)

/-- Embedding of `GeminiAPIClient.analyze_quiz`: the call may raise; an
elapsed time beyond the timeout raises TimeoutError after the fact;
otherwise the response is parsed.  Everything raised inside the try block
passes through the except clauses (`analyze_wrap`). -/
def analyze_quiz (call : ApiCallResult) (elapsed timeout now : ℚ) :
    Except PyExc QuizResult :=
  let body : Except PyExc QuizResult :=
    match call with
    | .raised e => .error e
    | .responded text =>
        if timeout < elapsed then
          .error (.timeoutError "API not responding within timeout seconds")
        else
          parse_response text now
  match body with
  | .ok r => .ok r
  | .error e => .error (analyze_wrap e)

/-- Which handler branch of `_process_screenshot_async` ran for a task. -/
inductive TaskPath
  | success
  | noQuestionsPath
  | timeoutPath
  | parseErrorPath
  | genericPath
deriving DecidableEq

/-- Embedding of `QuizAssistantApp._process_screenshot_async` given the
analysis call's outcome: success runs `_on_api_success`; the except clauses
try NoQuestionsFoundError (soft path, message "No questions found in
image"), then TimeoutError, then ValueError (parse-error path, also matching
the subclass JSONDecodeError), then the generic Exception path, each calling
`_on_api_error` with its message.  Returns the new app state and the branch
taken. -/
def process_screenshot_async (s : AppState) (outcome : Except PyExc QuizResult) :
    AppState × TaskPath :=
  match outcome with
  | .ok result => (QuizAssistantApp.on_api_success s result, .success)
  | .error (.noQuestionsFound _) =>
      (QuizAssistantApp.on_api_error s "No questions found in image",
       .noQuestionsPath)
  | .error (.timeoutError _) =>
      (QuizAssistantApp.on_api_error s "Timeout: API not responding",
       .timeoutPath)
  | .error (.valueError m) =>
      (QuizAssistantApp.on_api_error s ("Data analysis error: " ++ m),
       .parseErrorPath)
  | .error (.jsonDecodeError m) =>
      (QuizAssistantApp.on_api_error s ("Data analysis error: " ++ m),
       .parseErrorPath)
  | .error (.otherExc m) =>
      (QuizAssistantApp.on_api_error s ("Processing error: " ++ m),
       .genericPath)

/-- An app state holding one in-flight PROCESSING request, for concrete
dispatch traces. -/
def processingApp : AppState :=
  { last_capture_time := 3, request_manager :=
      some { id := "id1", status := "PROCESSING", created_at := 3,
             result := none, error := none },
    active_futures := ["id1"], answer_history := [], answer_file := [],
    popup_visible := false }

/-- The analysis outcome for a well-formed response whose `questions` array
is empty (the service found no questions). -/
def noQuestionsOutcome : Except PyExc QuizResult :=
  analyze_quiz (ApiCallResult.responded (ParsedJson.questionsList [])) 1 30 5

/-- C1 (what the code actually does): on a response with no valid questions,
`parse_response`'s own catch-all except clause swallows the
NoQuestionsFoundError raised just above it and rewraps it as a ValueError,
so the call does not raise the soft signal and the Orchestrator's task takes
the parse-error path with message "Data analysis error: Error parsing
response: No valid questions found in response" instead of the soft path
with "No questions found in image". -/
theorem no_questions_takes_parse_error_path :
    noQuestionsOutcome =
      Except.error (PyExc.valueError
        "Error parsing response: No valid questions found in response") ∧
    (process_screenshot_async processingApp noQuestionsOutcome).2 =
      TaskPath.parseErrorPath ∧
    (process_screenshot_async processingApp noQuestionsOutcome).2 ≠
      TaskPath.noQuestionsPath ∧
    (process_screenshot_async processingApp noQuestionsOutcome).1.request_manager =
      RequestManager.set_error processingApp.request_manager
        "Data analysis error: Error parsing response: No valid questions found in response" ∧
    (process_screenshot_async processingApp noQuestionsOutcome).1.request_manager ≠
      RequestManager.set_error processingApp.request_manager
        "No questions found in image" := by
  refine ⟨rfl, rfl, by decide, rfl, ?_⟩
  simp only [processingApp, RequestManager.set_error,
    QuizAssistantApp.on_api_error, process_screenshot_async,
    noQuestionsOutcome, analyze_quiz, parse_response, parse_response_body,
    parse_questions, analyze_wrap]
  decide

end QuizApp
